import Mathlib

/-!
Verification of the Risk-Gated Transfer Engine of the Blockchain Sentinel
repository against its natural-language specification.

The persistent state (PostgreSQL schema, triggers and trigger functions in
the database schema file) is embedded shallowly: tables keyed by a UNIQUE
column become finite maps `String → Option row`, append-only tables become
lists, and each SQL statement (an `INSERT` together with the `AFTER INSERT`
or `AFTER UPDATE` triggers it fires) becomes a total Lean function on the
state.  Timestamps are modelled as natural numbers, `NUMERIC(5,2)` risk
scores as rationals, and wei values (`NUMERIC(78,0)`) as natural numbers.

The FastAPI backend of the repository (risk evaluator, blacklist lookup,
transfer gate) is not part of the source tree; where a claim depends on it,
the missing component is modelled from the specification text and the
definition is marked `Modelled from the spec:`.
-/

namespace Sentinel

/-- Account status of a monitored wallet, per the CHECK constraint on
`wallets.account_status` in the schema. -/
inductive AccountStatus
  | active
  | suspended
  | frozen
  | under_review
deriving DecidableEq, Repr

/-- Row of the `wallets` table (the columns the core reads or writes). -/
structure Wallet where
  risk_score : Rat
  account_status : AccountStatus
  total_transactions : Nat
  total_value_sent : Nat
  total_value_received : Nat
  last_activity_at : Option Nat
  flagged_at : Option Nat
  flagged_by : Option String
deriving DecidableEq, Repr

/-- Row of the partitioned `transactions` table (ledger entry).  The schema
gives it a surrogate `(id, timestamp)` primary key with a freshly generated
UUID `id`, so the row identity never deduplicates entries; `tx_hash` only
carries a plain, non-unique index. `status` is `1` for success, `0` for a
failed transaction. -/
structure Txn where
  tx_hash : String
  from_address : String
  to_address : Option String
  value : Nat
  status : Nat
  timestamp : Nat
deriving DecidableEq, Repr

/-- Row of the `users` table (the columns the suspension trigger reads). -/
structure User where
  wallet_address : String
  warning_count : Nat
deriving DecidableEq, Repr

/-- Row of the `alerts` table (the columns the suspension trigger writes). -/
structure Alert where
  wallet_address : String
  alert_type : String
  severity : String
  message : String
  risk_score : Rat
deriving DecidableEq, Repr

/-- Row of the `blocked_transfers` audit table. -/
structure BlockedTransfer where
  sender_address : String
  receiver_address : String
  amount : Nat
  risk_score : Rat
  block_reason : String
  user_warning_count : Nat
deriving DecidableEq, Repr

/-- Row of the `user_warnings` table. -/
structure UserWarning where
  user_id : String
  wallet_address : String
  target_address : String
  risk_score : Rat
  warning_number : Nat
deriving DecidableEq, Repr

/-- Row of the `blacklist` table. -/
structure BlacklistEntry where
  address : String
  category : String
  severity : String
  is_active : Bool
  expires_at : Option Nat
deriving DecidableEq, Repr

/-- The `wallets` table, keyed by its UNIQUE `address` column. -/
abbrev Registry := String → Option Wallet

/-- The `users` table, keyed by its primary key. -/
abbrev UserTable := String → Option User

/-- Database state: the tables the Risk-Gated Transfer Engine touches. -/
structure DB where
  users : UserTable
  wallets : Registry
  transactions : List Txn
  alerts : List Alert
  blocked_transfers : List BlockedTransfer
  user_warnings : List UserWarning

/-- SQL `UPDATE wallets SET ... WHERE address = a`: apply `f` to the row at
address `a` if it exists; an UPDATE matching zero rows changes nothing and
raises no error. -/
def updateWalletAt (reg : Registry) (a : String) (f : Wallet → Wallet) : Registry :=
  fun x => if x = a then (reg x).map f else reg x

/-- The alert row inserted by `suspend_user_on_warnings`. -/
def suspensionAlert (addr : String) : Alert :=
  { wallet_address := addr
    alert_type := "USER_SUSPENDED"
    severity := "HIGH"
    message := "User account suspended after 3 ignored risk warnings"
    risk_score := 80 }

/-- Body of the trigger function `suspend_user_on_warnings()`: when the
updated user row has `warning_count >= 3`, set the associated wallet to
`suspended`, stamp `flagged_at` and `flagged_by = SYSTEM_AUTO_SUSPEND`
(unconditionally, with no guard on the previous wallet status), and insert
one `USER_SUSPENDED` alert of severity HIGH with score 80. -/
def suspend_user_on_warnings (now : Nat) (u : User) (db : DB) : DB :=
  if 3 ≤ u.warning_count then
    { db with
      wallets := updateWalletAt db.wallets u.wallet_address fun w =>
        { w with
          account_status := .suspended
          flagged_at := some now
          flagged_by := some "SYSTEM_AUTO_SUSPEND" }
      alerts := db.alerts ++ [suspensionAlert u.wallet_address] }
  else db

/-- SQL `UPDATE users SET warning_count = n WHERE id = uid`, together with
the `AFTER UPDATE OF warning_count` trigger `trg_suspend_user_on_warnings`,
whose WHEN clause `(NEW.warning_count >= 3 AND OLD.warning_count < 3)` makes
the suspension edge-triggered on the 3-strike crossing. -/
def updateWarningCount (now : Nat) (uid : String) (n : Nat) (db : DB) : DB :=
  match db.users uid with
  | none => db
  | some old =>
    let newU : User := { old with warning_count := n }
    let db1 : DB := { db with users := fun i => if i = uid then some newU else db.users i }
    if 3 ≤ n ∧ old.warning_count < 3 then
      suspend_user_on_warnings now newU db1
    else db1

/-- C1: when a user's warning count crosses the 3-strike threshold (old
count < 3, new count ≥ 3) and the associated wallet row exists and is
`active`, the wallet transitions to `suspended` with `flagged_at` and
`flagged_by = SYSTEM_AUTO_SUSPEND` stamped, and exactly one high-severity
USER_SUSPENDED alert is appended; an update whose old count is already ≥ 3
leaves the wallets table and the alerts table untouched, so the transition
and the alert happen exactly once per crossing. -/
theorem warning_threshold_suspends_once
    (db : DB) (uid : String) (n now : Nat) (u : User) (w : Wallet)
    (hu : db.users uid = some u)
    (hw : db.wallets u.wallet_address = some w) :
    (u.warning_count < 3 → 3 ≤ n → w.account_status = .active →
      (updateWarningCount now uid n db).wallets u.wallet_address =
        some { w with
                account_status := .suspended
                flagged_at := some now
                flagged_by := some "SYSTEM_AUTO_SUSPEND" } ∧
      (updateWarningCount now uid n db).alerts =
        db.alerts ++ [suspensionAlert u.wallet_address]) ∧
    (3 ≤ u.warning_count →
      (updateWarningCount now uid n db).wallets = db.wallets ∧
      (updateWarningCount now uid n db).alerts = db.alerts) := by
  constructor
  · intro hold hnew _
    unfold updateWarningCount
    rw [hu]
    simp only [hnew, hold, and_self, if_true]
    unfold suspend_user_on_warnings
    simp only [hnew, if_true]
    refine ⟨?_, by simp⟩
    unfold updateWalletAt
    simp [hw]
  · intro hge
    unfold updateWarningCount
    rw [hu]
    have : ¬ (3 ≤ n ∧ u.warning_count < 3) := by
      rintro ⟨-, hlt⟩
      omega
    simp only [this, if_false]
    exact ⟨by simp, by simp⟩

/-- Concrete wallet used in the C1 witness. -/
def walletC1 : Wallet :=
  { risk_score := 5
    account_status := .active
    total_transactions := 0
    total_value_sent := 0
    total_value_received := 0
    last_activity_at := none
    flagged_at := none
    flagged_by := none }

/-- Concrete user used in the C1 witness. -/
def userC1 : User := { wallet_address := "w1", warning_count := 2 }

/-- Concrete database used in the C1 witness. -/
def dbC1 : DB :=
  { users := fun i => if i = "u1" then some userC1 else none
    wallets := fun a => if a = "w1" then some walletC1 else none
    transactions := []
    alerts := []
    blocked_transfers := []
    user_warnings := [] }

/-- Witness for C1 at a concrete crossing from 2 to 3 warnings. -/
theorem warning_threshold_suspends_once_witness :
    (updateWarningCount 7 "u1" 3 dbC1).wallets "w1" =
      some { walletC1 with
              account_status := .suspended
              flagged_at := some 7
              flagged_by := some "SYSTEM_AUTO_SUSPEND" } ∧
    (updateWarningCount 7 "u1" 3 dbC1).alerts = [suspensionAlert "w1"] := by
  have h := (warning_threshold_suspends_once dbC1 "u1" 3 7 userC1 walletC1
      (by decide) (by decide)).1 (by decide) (by decide) (by decide)
  exact ⟨h.1, h.2⟩

/-- Concrete wallet used for C8: already flagged by an admin and no longer
active (status `frozen`). -/
def walletC8 : Wallet :=
  { risk_score := 99
    account_status := .frozen
    total_transactions := 4
    total_value_sent := 0
    total_value_received := 0
    last_activity_at := some 3
    flagged_at := some 5
    flagged_by := some "admin_security" }

/-- Concrete database used for C8: user `u2` at two warnings whose wallet
`w2` is already frozen and flagged. -/
def dbC8 : DB :=
  { users := fun i => if i = "u2" then some { wallet_address := "w2", warning_count := 2 } else none
    wallets := fun a => if a = "w2" then some walletC8 else none
    transactions := []
    alerts := []
    blocked_transfers := []
    user_warnings := [] }

/-- C8 counterexample: the suspension trigger has no guard on the previous
wallet status, so a 3-strike crossing for a user whose wallet is already
frozen (not active) overwrites `flagged_at` and `flagged_by`, contradicting
the claim that these fields are left unchanged when the wallet is not
active. -/
theorem flagged_fields_overwritten_when_not_active :
    walletC8.account_status = .frozen ∧
    walletC8.flagged_by = some "admin_security" ∧
    ((updateWarningCount 10 "u2" 3 dbC8).wallets "w2").map Wallet.flagged_by =
      some (some "SYSTEM_AUTO_SUSPEND") ∧
    ((updateWarningCount 10 "u2" 3 dbC8).wallets "w2").map Wallet.flagged_at =
      some (some 10) := by
  refine ⟨rfl, rfl, ?_, ?_⟩ <;> decide

/-- C8 (amended): the auto-suspend trigger stamps `flagged_at` and
`flagged_by = SYSTEM_AUTO_SUSPEND` on every warning-count crossing of the
3-strike threshold, regardless of the previous account status of the
wallet; when the previous count is already ≥ 3 the trigger does not fire
and every wallet row, in particular its flagged fields, is unchanged. -/
theorem flagged_fields_stamped_on_crossing
    (db : DB) (uid : String) (n now : Nat) (u : User) (w : Wallet)
    (hu : db.users uid = some u)
    (hw : db.wallets u.wallet_address = some w) :
    (u.warning_count < 3 → 3 ≤ n →
      ((updateWarningCount now uid n db).wallets u.wallet_address).map Wallet.flagged_at =
        some (some now) ∧
      ((updateWarningCount now uid n db).wallets u.wallet_address).map Wallet.flagged_by =
        some (some "SYSTEM_AUTO_SUSPEND")) ∧
    (3 ≤ u.warning_count →
      ∀ a, (updateWarningCount now uid n db).wallets a = db.wallets a) := by
  constructor
  · intro hold hnew
    unfold updateWarningCount
    rw [hu]
    simp only [hnew, hold, and_self, if_true]
    unfold suspend_user_on_warnings
    simp only [hnew, if_true]
    unfold updateWalletAt
    simp [hw]
  · intro hge a
    unfold updateWarningCount
    rw [hu]
    have : ¬ (3 ≤ n ∧ u.warning_count < 3) := by
      rintro ⟨-, hlt⟩
      omega
    simp [this]

/-- Witness for the amended C8 at a concrete crossing on a frozen wallet. -/
theorem flagged_fields_stamped_on_crossing_witness :
    ((updateWarningCount 10 "u2" 3 dbC8).wallets "w2").map Wallet.flagged_at =
      some (some 10) ∧
    ((updateWarningCount 10 "u2" 3 dbC8).wallets "w2").map Wallet.flagged_by =
      some (some "SYSTEM_AUTO_SUSPEND") := by
  have h := (flagged_fields_stamped_on_crossing dbC8 "u2" 3 10
      { wallet_address := "w2", warning_count := 2 } walletC8
      (by decide) (by decide)).1 (by decide) (by decide)
  exact h

/-- Body of the trigger function `update_wallet_stats()` fired AFTER INSERT
on `transactions`: bump the sender row (transaction count, value sent, last
activity), then, when `to_address` is non-null, bump the receiver row
(transaction count, value received, last activity).  A row whose address is
absent from `wallets` is silently not updated (UPDATE matching zero rows),
and `NEW.status` is never consulted. -/
def update_wallet_stats (t : Txn) (reg : Registry) : Registry :=
  let reg1 := updateWalletAt reg t.from_address fun w =>
    { w with
      total_transactions := w.total_transactions + 1
      total_value_sent := w.total_value_sent + t.value
      last_activity_at := some t.timestamp }
  match t.to_address with
  | some r => updateWalletAt reg1 r fun w =>
      { w with
        total_transactions := w.total_transactions + 1
        total_value_received := w.total_value_received + t.value
        last_activity_at := some t.timestamp }
  | none => reg1

/-- SQL `INSERT INTO transactions ...` together with the AFTER INSERT
trigger `trg_update_wallet_stats`: the ledger append and the wallet
aggregate updates form one step of the embedding, mirroring the fact that
the row trigger runs inside the same database transaction as the insert. -/
def insertTransaction (t : Txn) (db : DB) : DB :=
  { db with
    transactions := db.transactions ++ [t]
    wallets := update_wallet_stats t db.wallets }

/-- Commit a whole sequence of transfers, oldest first. -/
def insertAll (ts : List Txn) (db : DB) : DB :=
  ts.foldl (fun s t => insertTransaction t s) db

/-- Sum of the values of the ledger entries sent from address `a`. -/
def sentSum (l : List Txn) (a : String) : Nat :=
  ((l.filter fun t => t.from_address == a).map Txn.value).sum

/-- Sum of the values of the ledger entries received by address `a`. -/
def recvSum (l : List Txn) (a : String) : Nat :=
  ((l.filter fun t => t.to_address == some a).map Txn.value).sum

/-- Balance derived from the Ledger Store:
`Σ(value where to = a) − Σ(value where from = a)`. -/
def ledgerBalance (l : List Txn) (a : String) : Int :=
  (recvSum l a : Int) - (sentSum l a : Int)

/-- Consistency of the Wallet Registry cache with the Ledger Store: every
wallet row caches exactly the ledger sums for its address. -/
def statsConsistent (db : DB) : Prop :=
  ∀ a w, db.wallets a = some w →
    w.total_value_sent = sentSum db.transactions a ∧
    w.total_value_received = recvSum db.transactions a

theorem sentSum_append (l : List Txn) (t : Txn) (a : String) :
    sentSum (l ++ [t]) a =
      sentSum l a + (if t.from_address = a then t.value else 0) := by
  unfold sentSum
  rw [List.filter_append, List.map_append, List.sum_append]
  by_cases h : t.from_address = a
  · simp [List.filter, h]
  · have hb : (t.from_address == a) = false := by
      simpa using h
    simp [List.filter, hb, h]

theorem recvSum_append (l : List Txn) (t : Txn) (a : String) :
    recvSum (l ++ [t]) a =
      recvSum l a + (if t.to_address = some a then t.value else 0) := by
  unfold recvSum
  rw [List.filter_append, List.map_append, List.sum_append]
  by_cases h : t.to_address = some a
  · simp [List.filter, h]
  · have hb : (t.to_address == some a) = false := by
      simpa using h
    simp [List.filter, hb, h]

/-- Pointwise effect of the stats trigger on one wallet row: the sender
bump applies when the row is the sender, then the receiver bump applies
when the row is the receiver. -/
def statsUpd (t : Txn) (a : String) (w : Wallet) : Wallet :=
  let w1 := if t.from_address = a then
    { w with
      total_transactions := w.total_transactions + 1
      total_value_sent := w.total_value_sent + t.value
      last_activity_at := some t.timestamp }
    else w
  if t.to_address = some a then
    { w1 with
      total_transactions := w1.total_transactions + 1
      total_value_received := w1.total_value_received + t.value
      last_activity_at := some t.timestamp }
  else w1

theorem insertTransaction_wallets (db : DB) (t : Txn) (a : String) :
    (insertTransaction t db).wallets a = (db.wallets a).map (statsUpd t a) := by
  unfold insertTransaction update_wallet_stats updateWalletAt statsUpd
  cases hto : t.to_address with
  | none =>
    by_cases hf : a = t.from_address
    · subst hf
      simp
    · have hf2 : ¬ t.from_address = a := fun h => hf h.symm
      simp [hf, hf2]
  | some r =>
    by_cases hr : a = r
    · subst hr
      by_cases hf : a = t.from_address
      · subst hf
        simp [Option.map_map]
        cases db.wallets t.from_address <;> rfl
      · have hf2 : ¬ t.from_address = a := fun h => hf h.symm
        simp [hf, hf2]
    · have hr2 : ¬ t.to_address = some a := by
        rw [hto]
        intro h
        exact hr (Option.some.inj h).symm
      rw [hto] at hr2
      by_cases hf : a = t.from_address
      · subst hf
        simp [hr, hr2]
      · have hf2 : ¬ t.from_address = a := fun h => hf h.symm
        simp [hf, hf2, hr, hr2]

theorem statsUpd_sent (t : Txn) (a : String) (w : Wallet) :
    (statsUpd t a w).total_value_sent =
      w.total_value_sent + (if t.from_address = a then t.value else 0) := by
  unfold statsUpd
  by_cases hf : t.from_address = a <;> by_cases hr : t.to_address = some a <;>
    simp [hf, hr]

theorem statsUpd_received (t : Txn) (a : String) (w : Wallet) :
    (statsUpd t a w).total_value_received =
      w.total_value_received + (if t.to_address = some a then t.value else 0) := by
  unfold statsUpd
  by_cases hf : t.from_address = a <;> by_cases hr : t.to_address = some a <;>
    simp [hf, hr]

theorem statsConsistent_insertTransaction (db : DB) (t : Txn)
    (h : statsConsistent db) : statsConsistent (insertTransaction t db) := by
  intro a w hw
  rw [insertTransaction_wallets] at hw
  cases hdb : db.wallets a with
  | none => rw [hdb] at hw; cases hw
  | some w0 =>
    rw [hdb] at hw
    obtain ⟨h1, h2⟩ := h a w0 hdb
    have hw2 : statsUpd t a w0 = w := Option.some.inj hw
    have htrans : (insertTransaction t db).transactions = db.transactions ++ [t] := rfl
    rw [htrans]
    constructor
    · rw [← hw2, statsUpd_sent, sentSum_append, h1]
    · rw [← hw2, statsUpd_received, recvSum_append, h2]

theorem statsConsistent_insertAll (ts : List Txn) (db : DB)
    (h : statsConsistent db) : statsConsistent (insertAll ts db) := by
  induction ts generalizing db with
  | nil => exact h
  | cons t ts ih => exact ih _ (statsConsistent_insertTransaction db t h)

/-- C2: starting from a registry consistent with the ledger, after any
sequence of committed transfers every wallet row's cached
`total_value_sent` equals the sum of ledger values sent from its address,
`total_value_received` equals the sum received, and therefore the cached
(received − sent) equals the balance recomputed from the Ledger Store. -/
theorem cached_totals_match_ledger (ts : List Txn) (db : DB)
    (h : statsConsistent db) :
    statsConsistent (insertAll ts db) ∧
    ∀ a w, (insertAll ts db).wallets a = some w →
      (w.total_value_received : Int) - (w.total_value_sent : Int) =
        ledgerBalance (insertAll ts db).transactions a := by
  have hc := statsConsistent_insertAll ts db h
  refine ⟨hc, ?_⟩
  intro a w hw
  obtain ⟨h1, h2⟩ := hc a w hw
  unfold ledgerBalance
  rw [h1, h2]

/-- Fresh wallet row with zeroed aggregates, used in the C2 witness. -/
def zeroWallet : Wallet :=
  { risk_score := 0
    account_status := .active
    total_transactions := 0
    total_value_sent := 0
    total_value_received := 0
    last_activity_at := none
    flagged_at := none
    flagged_by := none }

/-- Concrete database used in the C2 witness: two registered wallets with
zeroed aggregates and an empty ledger. -/
def dbC2 : DB :=
  { users := fun _ => none
    wallets := fun a => if a = "a" then some zeroWallet else if a = "b" then some zeroWallet else none
    transactions := []
    alerts := []
    blocked_transfers := []
    user_warnings := [] }

/-- Concrete transfer used in the C2 witness. -/
def txnC2 : Txn :=
  { tx_hash := "h1"
    from_address := "a"
    to_address := some "b"
    value := 5
    status := 1
    timestamp := 11 }

theorem dbC2_consistent : statsConsistent dbC2 := by
  intro a w hw
  unfold dbC2 at hw
  dsimp at hw
  by_cases h1 : a = "a"
  · rw [if_pos h1] at hw
    cases hw
    exact ⟨rfl, rfl⟩
  · rw [if_neg h1] at hw
    by_cases h2 : a = "b"
    · rw [if_pos h2] at hw
      cases hw
      exact ⟨rfl, rfl⟩
    · rw [if_neg h2] at hw
      cases hw

/-- Receiver row after the C2 witness commit. -/
def walletC2b : Wallet :=
  { zeroWallet with
    total_transactions := 1
    total_value_received := 5
    last_activity_at := some 11 }

/-- Witness for C2: commits one concrete transfer on a consistent registry
and observes the derived-balance agreement on the receiver row. -/
theorem cached_totals_match_ledger_witness :
    (insertAll [txnC2] dbC2).wallets "b" = some walletC2b ∧
    (walletC2b.total_value_received : Int) - (walletC2b.total_value_sent : Int) =
      ledgerBalance (insertAll [txnC2] dbC2).transactions "b" := by
  have hb : (insertAll [txnC2] dbC2).wallets "b" = some walletC2b := by decide
  exact ⟨hb, (cached_totals_match_ledger [txnC2] dbC2 dbC2_consistent).2 "b" walletC2b hb⟩

/-- Number of ledger rows carrying a given transfer hash.  The schema puts
only the plain index `idx_transactions_hash` on `tx_hash` (a partitioned
table cannot carry a unique constraint that omits the partition key), so
nothing deduplicates this count. -/
def hashCount (l : List Txn) (h : String) : Nat :=
  (l.filter fun t => t.tx_hash == h).length

/-- Transfer used for C4: its hash is already present in `dbC4`. -/
def txnC4 : Txn :=
  { tx_hash := "h1"
    from_address := "a"
    to_address := some "b"
    value := 5
    status := 1
    timestamp := 4 }

/-- Database used for C4: `txnC4` is already committed and the aggregates
already account for it. -/
def dbC4 : DB :=
  { users := fun _ => none
    wallets := fun a =>
      if a = "a" then
        some { zeroWallet with total_transactions := 1, total_value_sent := 5, last_activity_at := some 4 }
      else if a = "b" then
        some { zeroWallet with total_transactions := 1, total_value_received := 5, last_activity_at := some 4 }
      else none
    transactions := [txnC4]
    alerts := []
    blocked_transfers := []
    user_warnings := [] }

/-- C4: re-submitting a commit whose transfer hash is already in the Ledger
Store is claimed to be a no-op, but the schema enforces no uniqueness on
`tx_hash`, so the insert goes through, the ledger ends up with two rows for
the hash, and the sender aggregates are double-counted. -/
theorem duplicate_hash_commit_double_entry :
    hashCount dbC4.transactions "h1" = 1 ∧
    hashCount (insertTransaction txnC4 dbC4).transactions "h1" = 2 ∧
    ((insertTransaction txnC4 dbC4).wallets "a").map Wallet.total_value_sent = some 10 ∧
    ((insertTransaction txnC4 dbC4).wallets "a").map Wallet.total_transactions = some 2 := by
  refine ⟨?_, ?_, ?_, ?_⟩ <;> decide

/-- C5: committing a transfer appends the ledger row and applies the
aggregate updates in the same single step of the embedding (the AFTER
INSERT row trigger runs in the transaction of the insert, so no state with
one effect and not the other is observable): the sender row gains one
transaction and the transfer value on `total_value_sent` with
`last_activity_at` stamped; exactly when `to_address` is non-null and names
a distinct registered wallet, the receiver row gains one transaction and
the value on `total_value_received` with `last_activity_at` stamped, while
a null `to_address` leaves every other row untouched. -/
theorem commit_updates_aggregates_atomically
    (db : DB) (t : Txn) (w : Wallet)
    (hs : db.wallets t.from_address = some w) :
    (insertTransaction t db).transactions = db.transactions ++ [t] ∧
    (∀ r, t.to_address = some r → r ≠ t.from_address →
      (insertTransaction t db).wallets t.from_address =
        some { w with
                total_transactions := w.total_transactions + 1
                total_value_sent := w.total_value_sent + t.value
                last_activity_at := some t.timestamp } ∧
      ∀ v, db.wallets r = some v →
        (insertTransaction t db).wallets r =
          some { v with
                  total_transactions := v.total_transactions + 1
                  total_value_received := v.total_value_received + t.value
                  last_activity_at := some t.timestamp }) ∧
    (t.to_address = none →
      (insertTransaction t db).wallets t.from_address =
        some { w with
                total_transactions := w.total_transactions + 1
                total_value_sent := w.total_value_sent + t.value
                last_activity_at := some t.timestamp } ∧
      ∀ a, a ≠ t.from_address → (insertTransaction t db).wallets a = db.wallets a) := by
  refine ⟨rfl, ?_, ?_⟩
  · intro r hto hne
    constructor
    · rw [insertTransaction_wallets, hs]
      unfold statsUpd
      have hnr : ¬ t.to_address = some t.from_address := by
        rw [hto]
        intro h
        exact hne (Option.some.inj h)
      simp [hnr]
    · intro v hv
      rw [insertTransaction_wallets, hv]
      unfold statsUpd
      have hf : ¬ t.from_address = r := fun h => hne h.symm
      simp [hf, hto]
  · intro hto
    constructor
    · rw [insertTransaction_wallets, hs]
      unfold statsUpd
      simp [hto]
    · intro a ha
      rw [insertTransaction_wallets]
      have hf : ¬ t.from_address = a := fun h => ha h.symm
      unfold statsUpd
      simp [hf, hto]

/-- Sender row of the C5 witness database. -/
def walletC5a : Wallet :=
  { zeroWallet with total_transactions := 3, total_value_sent := 10 }

/-- Receiver row of the C5 witness database. -/
def walletC5b : Wallet :=
  { zeroWallet with total_transactions := 2, total_value_received := 4 }

/-- Database used in the C5 witness. -/
def dbC5 : DB :=
  { users := fun _ => none
    wallets := fun a =>
      if a = "a" then some walletC5a else if a = "b" then some walletC5b else none
    transactions := []
    alerts := []
    blocked_transfers := []
    user_warnings := [] }

/-- Transfer used in the C5 witness. -/
def txnC5 : Txn :=
  { tx_hash := "h5"
    from_address := "a"
    to_address := some "b"
    value := 7
    status := 1
    timestamp := 9 }

/-- Witness for C5 on a concrete commit between two registered wallets. -/
theorem commit_updates_aggregates_atomically_witness :
    (insertTransaction txnC5 dbC5).transactions = dbC5.transactions ++ [txnC5] ∧
    (insertTransaction txnC5 dbC5).wallets "a" =
      some { walletC5a with
              total_transactions := 4
              total_value_sent := 17
              last_activity_at := some 9 } ∧
    (insertTransaction txnC5 dbC5).wallets "b" =
      some { walletC5b with
              total_transactions := 3
              total_value_received := 11
              last_activity_at := some 9 } := by
  have h := commit_updates_aggregates_atomically dbC5 txnC5 walletC5a (by decide)
  have h2 := h.2.1 "b" (by decide) (by decide)
  exact ⟨h.1, h2.1, h2.2 walletC5b (by decide)⟩

/-- C9: the wallet-statistics trigger reads nothing from `NEW.status`, so a
failed transaction (status 0) updates the aggregates exactly as a
successful one; and independently for each endpoint of the inserted
transfer, an address with no `wallets` row makes the corresponding UPDATE
match zero rows: nothing is updated for that address, no wallet row is
created there (it stays absent even when the other endpoint is
registered), and no error is raised — the embedding step is a total
function. -/
theorem wallet_stats_ignore_status_and_missing_rows (db : DB) (t : Txn) :
    (∀ b, (insertTransaction { t with status := b } db).wallets =
          (insertTransaction t db).wallets) ∧
    (db.wallets t.from_address = none →
      (insertTransaction t db).wallets t.from_address = none) ∧
    (∀ r, t.to_address = some r → db.wallets r = none →
      (insertTransaction t db).wallets r = none) := by
  refine ⟨fun b => rfl, ?_, ?_⟩
  · intro hfrom
    rw [insertTransaction_wallets, hfrom]
    rfl
  · intro r _ hr
    rw [insertTransaction_wallets, hr]
    rfl

/-- Database used in the C9 witness: the sender is registered, the
receiver is not. -/
def dbC9 : DB :=
  { users := fun _ => none
    wallets := fun a => if a = "x" then some zeroWallet else none
    transactions := []
    alerts := []
    blocked_transfers := []
    user_warnings := [] }

/-- Transfer used in the C9 witness: from the registered wallet `x` to the
unregistered address `y`. -/
def txnC9 : Txn :=
  { tx_hash := "h9"
    from_address := "x"
    to_address := some "y"
    value := 3
    status := 1
    timestamp := 2 }

/-- Witness for C9: a failed-status copy commits the same registry update,
and a commit from a registered sender to an unregistered receiver leaves
the receiver address rowless. -/
theorem wallet_stats_ignore_status_and_missing_rows_witness :
    (insertTransaction { txnC9 with status := 0 } dbC9).wallets =
      (insertTransaction txnC9 dbC9).wallets ∧
    (insertTransaction txnC9 dbC9).wallets "y" = none := by
  have h := wallet_stats_ignore_status_and_missing_rows dbC9 txnC9
  exact ⟨h.1 0, h.2.2 "y" (by decide) (by decide)⟩

/-- Risk level enumeration used by the risk evaluator and stored in
`risk_assessments.risk_level`. -/
inductive RiskLevel
  | LOW
  | MEDIUM
  | HIGH
  | CRITICAL
deriving DecidableEq, Repr

/-- Modelled from the spec: a blacklist entry counts iff it is active and
unexpired (`is_active` set and `expires_at` either null or in the
future). -/
def entryLive (now : Nat) (e : BlacklistEntry) : Bool :=
  e.is_active &&
    (match e.expires_at with
     | none => true
     | some x => decide (now < x))

/-- Modelled from the spec: `IsBlacklisted(address) -> (bool, severity)`,
the Blacklist Index lookup of the FastAPI backend, which is absent from the
source tree (only the `blacklist` table is).  Exact-match lookup over the
entries, no fuzzy or prefix matching, returning the severity of a live
matching entry; a pure total function, so it has no side effects and never
errors. -/
def IsBlacklisted (now : Nat) (bl : List BlacklistEntry) (a : String) : Bool × Option String :=
  match bl.find? (fun e => e.address == a && entryLive now e) with
  | some e => (true, some e.severity)
  | none => (false, none)

/-- C7: the blacklist lookup answers true exactly when a live (active and
unexpired) entry exists for precisely the queried address, and on an
address with no such entry it returns `(false, none)`; side-effect freedom
and totality hold by construction of the pure function. -/
theorem isBlacklisted_exact_match (now : Nat) (bl : List BlacklistEntry) (a : String) :
    ((IsBlacklisted now bl a).1 = true ↔
      ∃ e ∈ bl, e.address = a ∧ entryLive now e = true) ∧
    ((∀ e ∈ bl, ¬ (e.address = a ∧ entryLive now e = true)) →
      IsBlacklisted now bl a = (false, none)) := by
  constructor
  · unfold IsBlacklisted
    cases hfind : bl.find? (fun e => e.address == a && entryLive now e) with
    | none =>
      simp only [Bool.false_eq_true, false_iff]
      rintro ⟨e, he, rfl, hlive⟩
      have := List.find?_eq_none.mp hfind e he
      simp [hlive] at this
    | some e =>
      have hmem := List.mem_of_find?_eq_some hfind
      have hp := List.find?_some hfind
      simp only [Bool.and_eq_true, beq_iff_eq] at hp
      simp only [true_iff]
      exact ⟨e, hmem, hp.1, hp.2⟩
  · intro hnone
    unfold IsBlacklisted
    have : bl.find? (fun e => e.address == a && entryLive now e) = none := by
      rw [List.find?_eq_none]
      intro e he
      have := hnone e he
      intro hcontra
      simp only [Bool.and_eq_true, beq_iff_eq] at hcontra
      exact this hcontra
    rw [this]

/-- Live entry used in the C7 witness. -/
def entryC7 : BlacklistEntry :=
  { address := "bad"
    category := "Heist"
    severity := "CRITICAL"
    is_active := true
    expires_at := none }

/-- Witness for C7 on a one-entry blacklist: the listed address is found
and an unlisted address gets `(false, none)`. -/
theorem isBlacklisted_exact_match_witness :
    (IsBlacklisted 0 [entryC7] "bad").1 = true ∧
    IsBlacklisted 0 [entryC7] "good" = (false, none) := by
  constructor
  · exact (isBlacklisted_exact_match 0 [entryC7] "bad").1.mpr
      ⟨entryC7, by decide, by decide, by decide⟩
  · exact (isBlacklisted_exact_match 0 [entryC7] "good").2
      (by intro e he; simp only [List.mem_singleton] at he; subst he; decide)

/-- Modelled from the spec: threshold mapping of a recorded risk score to a
risk level (score ≥ 80 CRITICAL, 60 ≤ score < 80 HIGH, 40 ≤ score < 60
MEDIUM, below 40 LOW). -/
def levelOfScore (s : Rat) : RiskLevel :=
  if 80 ≤ s then .CRITICAL
  else if 60 ≤ s then .HIGH
  else if 40 ≤ s then .MEDIUM
  else .LOW

/-- Verdict produced by the risk evaluator. -/
structure RiskVerdict where
  score : Rat
  level : RiskLevel
deriving DecidableEq, Repr

/-- Modelled from the spec: the Risk Evaluator of the backend (absent from
the source tree).  A blacklisted recipient is CRITICAL with its recorded
score, or the sentinel maximum 100 when unregistered; otherwise the
recorded score is mapped through the thresholds, and an unknown wallet is
LOW with score 0. -/
def Evaluate (now : Nat) (bl : List BlacklistEntry) (reg : Registry) (a : String) : RiskVerdict :=
  if (IsBlacklisted now bl a).1 then
    { score :=
        match reg a with
        | some w => w.risk_score
        | none => 100
      level := .CRITICAL }
  else
    match reg a with
    | none => { score := 0, level := .LOW }
    | some w => { score := w.risk_score, level := levelOfScore w.risk_score }

/-- Warning count currently recorded for a user, 0 when unknown. -/
def warningCountOf (db : DB) (uid : String) : Nat :=
  match db.users uid with
  | some u => u.warning_count
  | none => 0

/-- Decision of the Transfer Gate for one attempt. -/
inductive Decision
  | ALLOWED
  | WARNED
  | BLOCKED
deriving DecidableEq, Repr

/-- Transfer request entering the gate. -/
structure TransferRequest where
  user_id : String
  from_address : String
  to_address : String
  amount : Nat
deriving DecidableEq, Repr

/-- Modelled from the spec: Strike Ledger `RecordWarning` — atomically
increment the sending user's warning count (firing the edge-triggered
suspension) and append the `user_warnings` row stamped with the new
count. -/
def RecordWarning (now : Nat) (req : TransferRequest) (score : Rat) (db : DB) : DB :=
  match db.users req.user_id with
  | none => db
  | some u =>
    let n := u.warning_count + 1
    let db1 := updateWarningCount now req.user_id n db
    { db1 with
      user_warnings := db1.user_warnings ++
        [{ user_id := req.user_id
           wallet_address := req.from_address
           target_address := req.to_address
           risk_score := score
           warning_number := n }] }

/-- Ledger row committed by an allowed transfer. -/
def mkTxn (hash : String) (now : Nat) (req : TransferRequest) : Txn :=
  { tx_hash := hash
    from_address := req.from_address
    to_address := some req.to_address
    value := req.amount
    status := 1
    timestamp := now }

/-- Modelled from the spec: the risk branches of the Transfer Gate (steps
2–5 of the decision policy; the structural-validation precondition of step
1 is screened before these branches and produces no risk decision).  A
CRITICAL verdict blocks unconditionally, writing the audit record whose
reason prefers `blacklisted` over `high_risk_score`; a HIGH verdict warns
on the first attempt and commits on an overridden re-submission; MEDIUM and
LOW commit directly. -/
def gateDecide (now : Nat) (hash : String) (override : Bool)
    (bl : List BlacklistEntry) (req : TransferRequest) (db : DB) : Decision × DB :=
  let v := Evaluate now bl db.wallets req.to_address
  if v.level = .CRITICAL then
    (.BLOCKED,
     { db with
       blocked_transfers := db.blocked_transfers ++
         [{ sender_address := req.from_address
            receiver_address := req.to_address
            amount := req.amount
            risk_score := v.score
            block_reason :=
              if (IsBlacklisted now bl req.to_address).1 then "blacklisted"
              else "high_risk_score"
            user_warning_count := warningCountOf db req.user_id }] })
  else if v.level = .HIGH then
    if override then
      (.ALLOWED, insertTransaction (mkTxn hash now req) db)
    else
      (.WARNED, RecordWarning now req v.score db)
  else
    (.ALLOWED, insertTransaction (mkTxn hash now req) db)

/-- C3: whenever the verdict on the recipient is CRITICAL — the recipient
is blacklisted, or its recorded risk score is at least 80 — the gate blocks
the transfer for either value of the override flag, appends exactly one
blocked-transfer audit record whose reason is `blacklisted` when the
recipient is blacklisted (taking precedence over `high_risk_score` when
both causes apply) and `high_risk_score` otherwise, and commits nothing to
the ledger. -/
theorem critical_verdict_always_blocked
    (now : Nat) (hash : String) (override : Bool) (bl : List BlacklistEntry)
    (req : TransferRequest) (db : DB)
    (hcrit : (IsBlacklisted now bl req.to_address).1 = true ∨
             ∃ w, db.wallets req.to_address = some w ∧ 80 ≤ w.risk_score) :
    (gateDecide now hash override bl req db).1 = .BLOCKED ∧
    (gateDecide now hash override bl req db).2.transactions = db.transactions ∧
    (gateDecide now hash override bl req db).2.blocked_transfers =
      db.blocked_transfers ++
        [{ sender_address := req.from_address
           receiver_address := req.to_address
           amount := req.amount
           risk_score := (Evaluate now bl db.wallets req.to_address).score
           block_reason :=
             if (IsBlacklisted now bl req.to_address).1 then "blacklisted"
             else "high_risk_score"
           user_warning_count := warningCountOf db req.user_id }] := by
  have hlevel : (Evaluate now bl db.wallets req.to_address).level = RiskLevel.CRITICAL := by
    unfold Evaluate
    rcases hcrit with hb | ⟨w, hw, hscore⟩
    · simp [hb]
    · by_cases hb : (IsBlacklisted now bl req.to_address).1 = true
      · simp [hb]
      · simp only [Bool.not_eq_true] at hb
        simp only [hb, Bool.false_eq_true, if_false, hw]
        unfold levelOfScore
        simp [hscore]
  unfold gateDecide
  simp only [hlevel, if_true]
  exact ⟨by simp, by simp, by simp⟩

/-- Transfer request used in the C3 witness. -/
def reqC3 : TransferRequest :=
  { user_id := "u"
    from_address := "a"
    to_address := "bad"
    amount := 5 }

/-- Database used in the C3 witness. -/
def dbC3 : DB :=
  { users := fun i => if i = "u" then some { wallet_address := "a", warning_count := 1 } else none
    wallets := fun a => if a = "a" then some zeroWallet else none
    transactions := []
    alerts := []
    blocked_transfers := []
    user_warnings := [] }

/-- Witness for C3: a transfer to the blacklisted address is blocked even
with the override flag set, and the ledger stays empty. -/
theorem critical_verdict_always_blocked_witness :
    (gateDecide 0 "h" true [entryC7] reqC3 dbC3).1 = Decision.BLOCKED ∧
    (gateDecide 0 "h" true [entryC7] reqC3 dbC3).2.transactions = dbC3.transactions := by
  have h := critical_verdict_always_blocked 0 "h" true [entryC7] reqC3 dbC3
    (Or.inl (by decide))
  exact ⟨h.1, h.2.1⟩

/-- Risk badge variant of the admin dashboard suspicious-accounts table:
`risk_score >= 90` critical, `>= 70` high, `>= 50` medium, otherwise
low. -/
def riskBadgeVariant (s : Rat) : String :=
  if 90 ≤ s then "critical"
  else if 70 ≤ s then "high"
  else if 50 ≤ s then "medium"
  else "low"

/-- C6 counterexample: the claim puts CRITICAL at score ≥ 80 and MEDIUM at
40 ≤ score < 60, but the dashboard risk badge classifies a non-blacklisted
wallet of score 85 as high (not critical) and one of score 45 as low (not
medium), because its thresholds are 90, 70 and 50. -/
theorem risk_thresholds_counterexample :
    riskBadgeVariant 85 = "high" ∧
    riskBadgeVariant 85 ≠ "critical" ∧
    riskBadgeVariant 45 = "low" ∧
    riskBadgeVariant 45 ≠ "medium" := by
  refine ⟨?_, ?_, ?_, ?_⟩ <;> decide

/-- C6 (amended): the risk classification the admin dashboard badge
assigns to a recorded score is exactly critical for score ≥ 90, high for
70 ≤ score < 90, medium for 50 ≤ score < 70 and low for score < 50. -/
theorem risk_badge_thresholds (s : Rat) :
    (riskBadgeVariant s = "critical" ↔ 90 ≤ s) ∧
    (riskBadgeVariant s = "high" ↔ 70 ≤ s ∧ s < 90) ∧
    (riskBadgeVariant s = "medium" ↔ 50 ≤ s ∧ s < 70) ∧
    (riskBadgeVariant s = "low" ↔ s < 50) := by
  unfold riskBadgeVariant
  split_ifs with h1 h2 h3
  · exact ⟨iff_of_true rfl h1,
      iff_of_false (by decide) (by rintro ⟨-, hb⟩; linarith),
      iff_of_false (by decide) (by rintro ⟨-, hb⟩; linarith),
      iff_of_false (by decide) (by intro hb; linarith)⟩
  · exact ⟨iff_of_false (by decide) h1,
      iff_of_true rfl ⟨h2, not_le.mp h1⟩,
      iff_of_false (by decide) (by rintro ⟨-, hb⟩; linarith),
      iff_of_false (by decide) (by intro hb; linarith)⟩
  · exact ⟨iff_of_false (by decide) (by intro hb; exact h1 (by linarith)),
      iff_of_false (by decide) (by rintro ⟨hb, -⟩; exact h2 hb),
      iff_of_true rfl ⟨h3, not_le.mp h2⟩,
      iff_of_false (by decide) (by intro hb; linarith)⟩
  · exact ⟨iff_of_false (by decide) (by intro hb; exact h1 (by linarith)),
      iff_of_false (by decide) (by rintro ⟨hb, -⟩; exact h2 hb),
      iff_of_false (by decide) (by rintro ⟨hb, -⟩; exact h3 hb),
      iff_of_true rfl (not_le.mp h3)⟩

namespace Exchange

/-- Numeric value of a digit list, most significant digit first. -/
def digitsVal (cs : List Char) : Nat :=
  cs.foldl (fun n c => 10 * n + (c.toNat - 48)) 0

/-- Decimal reading of the amount field as the page applies it before
submitting: an optional sign, then the longest prefix of digits with an
optional fractional part; a string without a leading number yields no value
(NaN in the source, where the guard comparison NaN <= 0 is false). -/
def parseFloat (s : String) : Option Rat :=
  let cs := s.toList
  let signed : Bool × List Char :=
    match cs with
    | '-' :: t => (true, t)
    | '+' :: t => (false, t)
    | _ => (false, cs)
  let intPart := signed.2.takeWhile Char.isDigit
  let rest := signed.2.dropWhile Char.isDigit
  let fracPart :=
    match rest with
    | '.' :: t => t.takeWhile Char.isDigit
    | _ => []
  if intPart.isEmpty && fracPart.isEmpty then none
  else
    let den : Nat := 10 ^ fracPart.length
    let num : Int := digitsVal intPart * den + digitsVal fracPart
    some (mkRat (if signed.1 then -num else num) den)

/-- Guard shared by `handleSend` and the Send button disabled attribute:
`!toAddress || !amount || parseFloat(amount) <= 0`. -/
def sendBlockedByGuard (toAddress amount : String) : Bool :=
  toAddress == "" || amount == "" ||
    (match parseFloat amount with
     | some q => decide (q ≤ 0)
     | none => false)

/-- Component state of the user exchange page (the fields the send path
reads or writes). -/
structure PageState where
  toAddress : String
  amount : String
  showWarningDialog : Bool
  showBlockedDialog : Bool
  showSuccessDialog : Bool
deriving DecidableEq, Repr

/-- Request issued through `sendProtectedTransfer`. -/
structure Request where
  to_address : String
  amount : Option Rat
  confirmRisk : Bool
deriving DecidableEq, Repr

/-- User and network events the page reacts to; `response` carries the
status string of the transfer response handled in the mutation
callback. -/
inductive Event
  | setToAddress (s : String)
  | setAmount (s : String)
  | send
  | confirmRisk
  | cancelTransfer
  | response (status : String)
  | closeBlocked
  | closeSuccess
deriving DecidableEq, Repr

/-- One step of the page: the handler fired by the event, giving the next
state and the request issued, if any.  `handleSend` submits with
`confirmRisk = false` unless the guard stops it; the Proceed Anyway button
is rendered only while the warning dialog is open, and `handleConfirmRisk`
closes the dialog and re-submits with `confirmRisk = true`; a warning
response opens the warning dialog, a blocked response the blocked dialog,
and a success response clears the form. -/
def step (st : PageState) : Event → PageState × Option Request
  | .setToAddress s => ({ st with toAddress := s }, none)
  | .setAmount s => ({ st with amount := s }, none)
  | .send =>
    if sendBlockedByGuard st.toAddress st.amount then (st, none)
    else
      (st, some { to_address := st.toAddress, amount := parseFloat st.amount, confirmRisk := false })
  | .confirmRisk =>
    if st.showWarningDialog then
      ({ st with showWarningDialog := false },
       some { to_address := st.toAddress, amount := parseFloat st.amount, confirmRisk := true })
    else (st, none)
  | .cancelTransfer => ({ st with showWarningDialog := false }, none)
  | .response status =>
    if status = "warning" then ({ st with showWarningDialog := true }, none)
    else if status = "blocked" then ({ st with showBlockedDialog := true }, none)
    else if status = "success" then
      ({ st with showSuccessDialog := true, toAddress := "", amount := "" }, none)
    else (st, none)
  | .closeBlocked => ({ st with showBlockedDialog := false, toAddress := "", amount := "" }, none)
  | .closeSuccess => ({ st with showSuccessDialog := false }, none)

/-- Run a sequence of events, collecting the issued requests in order. -/
def run (st : PageState) : List Event → PageState × List Request
  | [] => (st, [])
  | e :: es =>
    let p := step st e
    let q := run p.1 es
    (q.1, p.2.toList ++ q.2)

/-- Initial state of the page: empty fields, no dialog open. -/
def initState : PageState :=
  { toAddress := ""
    amount := ""
    showWarningDialog := false
    showBlockedDialog := false
    showSuccessDialog := false }

theorem step_warning_closed (st : PageState) (e : Event)
    (h : st.showWarningDialog = false) (hw : e ≠ .response "warning") :
    (step st e).1.showWarningDialog = false ∧
    ∀ r ∈ (step st e).2.toList, r.confirmRisk = false := by
  cases e with
  | setToAddress s => exact ⟨h, by intro r hr; cases hr⟩
  | setAmount s => exact ⟨h, by intro r hr; cases hr⟩
  | send =>
    by_cases hg : sendBlockedByGuard st.toAddress st.amount = true
    · constructor
      · simp [step, hg, h]
      · intro r hr
        simp [step, hg] at hr
    · simp only [Bool.not_eq_true] at hg
      constructor
      · simp [step, hg, h]
      · intro r hr
        simp [step, hg] at hr
        rw [hr]
  | confirmRisk =>
    constructor
    · simp [step, h]
    · intro r hr
      simp [step, h] at hr
  | cancelTransfer => exact ⟨rfl, by intro r hr; cases hr⟩
  | response status =>
    have hs : ¬ status = "warning" := by
      intro hh
      exact hw (by rw [hh])
    unfold step
    simp only [hs, if_false]
    by_cases hb : status = "blocked"
    · simp only [hb, if_true]
      exact ⟨h, by intro r hr; cases hr⟩
    · simp only [hb, if_false]
      by_cases hsc : status = "success"
      · simp only [hsc, if_true]
        exact ⟨h, by intro r hr; cases hr⟩
      · simp only [hsc, if_false]
        exact ⟨h, by intro r hr; cases hr⟩
  | closeBlocked => exact ⟨h, by intro r hr; cases hr⟩
  | closeSuccess => exact ⟨h, by intro r hr; cases hr⟩

theorem run_all_unconfirmed (es : List Event) :
    ∀ st : PageState, st.showWarningDialog = false →
      Event.response "warning" ∉ es →
      (run st es).1.showWarningDialog = false ∧
      ∀ r ∈ (run st es).2, r.confirmRisk = false := by
  induction es with
  | nil =>
    intro st h _
    exact ⟨h, by intro r hr; cases hr⟩
  | cons e es ih =>
    intro st h hn
    have hn1 : e ≠ .response "warning" := by
      intro hh
      exact hn (hh ▸ List.mem_cons_self e es)
    have hn2 : Event.response "warning" ∉ es := fun hh => hn (List.mem_cons_of_mem _ hh)
    obtain ⟨hstep1, hstep2⟩ := step_warning_closed st e h hn1
    obtain ⟨hrun1, hrun2⟩ := ih (step st e).1 hstep1 hn2
    refine ⟨hrun1, ?_⟩
    intro r hr
    unfold run at hr
    simp only [List.mem_append] at hr
    rcases hr with hr | hr
    · exact hstep2 r hr
    · exact hrun2 r hr

/-- C10: the send action issues no request and leaves the component state
unchanged whenever the recipient field is empty, the amount field is empty,
or the amount reads as a value at most zero; any request the send action
does issue carries `confirmRisk = false`; and along any event history from
the initial state that contains no warning response, every issued request
carries `confirmRisk = false` — so `confirmRisk = true` is only ever sent
through the confirm action made available by a warning response. -/
theorem exchange_send_guard_and_override :
    (∀ st : PageState,
      (st.toAddress = "" ∨ st.amount = "" ∨
        ∃ q, parseFloat st.amount = some q ∧ q ≤ 0) →
      step st .send = (st, none)) ∧
    (∀ (st st1 : PageState) (r : Request),
      step st .send = (st1, some r) → st1 = st ∧ r.confirmRisk = false) ∧
    (∀ es : List Event, Event.response "warning" ∉ es →
      ∀ r ∈ (run initState es).2, r.confirmRisk = false) := by
  refine ⟨?_, ?_, ?_⟩
  · intro st h
    have hg : sendBlockedByGuard st.toAddress st.amount = true := by
      unfold sendBlockedByGuard
      rcases h with h | h | ⟨q, hq, hq0⟩
      · simp [h]
      · simp [h]
      · rw [hq]
        simp [hq0]
    unfold step
    simp [hg]
  · intro st st1 r h
    unfold step at h
    by_cases hg : sendBlockedByGuard st.toAddress st.amount = true
    · rw [if_pos hg] at h
      injection h with h1 h2
      exact Option.noConfusion h2
    · rw [if_neg hg] at h
      injection h with h1 h2
      injection h2 with h3
      exact ⟨h1.symm, by rw [← h3]⟩
  · intro es hn
    exact (run_all_unconfirmed es initState rfl hn).2

/-- Page state used in the C10 witness guard check. -/
def stC10 : PageState := { initState with toAddress := "0xb", amount := "0" }

/-- Event history used in the C10 witness: a successful send with no
warning response. -/
def evsC10 : List Event :=
  [.setToAddress "0xb", .setAmount "1", .send, .response "success"]

/-- Witness for C10: a zero amount stops the send with no state change,
and the one request of a warning-free history is unconfirmed. -/
theorem exchange_send_guard_and_override_witness :
    step stC10 .send = (stC10, none) ∧
    (run initState evsC10).2.map Request.confirmRisk = [false] := by
  constructor
  · exact exchange_send_guard_and_override.1 stC10
      (Or.inr (Or.inr ⟨0, by decide, by decide⟩))
  · have h := exchange_send_guard_and_override.2.2 evsC10 (by decide)
    decide

end Exchange

end Sentinel
